import Mathlib

/-!
Verification development for the EcoSort AI waste-sorting game
(single-file React component `src/src/App.tsx`).

The component's logic is embedded shallowly:

* External collaborators (the storage service, the AI text-generation
  service, and the platform `JSON.parse`) are passed in as explicit
  oracle arguments, exactly at the points where the component calls them.
* JavaScript numbers that only ever hold integral values are modelled
  as `Int`; `Math.floor(x / 500)` on integers is `Int.fdiv x 500`,
  and `Math.round` is `fun q => ⌊q + 1/2⌋` on `ℚ`.
* `throw`/`try`/`catch` is modelled with `Except`: each `try` body is a
  separate definition returning `Except`, and the enclosing function
  pattern-matches on it the way the `catch` clause does.
* React `useState` values live in an explicit `AppState` record; the
  `setInterval` callback of `startStreamingAnalysis` closes over the
  value `lastAnalysisTime` had when the interval was installed, so that
  captured value is threaded separately from the (updated but never
  re-read) state field, mirroring the JavaScript closure semantics.
-/

namespace EcoSort

/-- `interface AnalysisResult` from `App.tsx`.  The TypeScript type
annotates `classification` as the union `'recycle' | 'trash'`, but the
value is produced by an unchecked cast from `JSON.parse`, so it is kept
here as a plain string; `confidence` is a JS number, kept as `Int`. -/
structure AnalysisResult where
  classification : String
  confidence : Int
  explanation : String
  tips : List String
deriving DecidableEq

/-- `interface GameStats` from `App.tsx`; all fields are JS numbers. -/
structure GameStats where
  score : Int
  streak : Int
  totalAnswers : Int
  correctAnswers : Int
  level : Int
deriving DecidableEq

/-- The initial `useState` value of `gameStats`. -/
def initialGameStats : GameStats :=
  { score := 0, streak := 0, totalAnswers := 0, correctAnswers := 0, level := 1 }

/-- The JavaScript value obtained from `JSON.parse(cleanedText)` in
`analyzeImageFromUrl`, restricted to the fields the component reads.
`classification := none` models both a missing field and a non-object
parse result; the remaining fields are carried through unchanged by the
`as AnalysisResult` cast. -/
structure RawResult where
  classification : Option String
  confidence : Int
  explanation : String
  tips : List String
deriving DecidableEq

/-- Model of JavaScript `String.prototype.startsWith`. -/
def jsStartsWith (s pre : String) : Bool :=
  s.data.take pre.data.length == pre.data

/-- Whitespace recognised by the model of `String.prototype.trim`. -/
def isSpaceChar (c : Char) : Bool :=
  c == ' ' || c == '\n' || c == '\t' || c == '\r'

/-- Model of JavaScript `String.prototype.trim`. -/
def trimChars (l : List Char) : List Char :=
  ((l.dropWhile isSpaceChar).reverse.dropWhile isSpaceChar).reverse

/-- The global regex replace `text.replace(/```json\n?|\n?```/g, '')`
from `analyzeImageFromUrl`, on character lists.  At each position the
regex engine tries the alternatives in order, each greedy optional
newline first, removes the leftmost match and resumes after it; a
non-matching character is kept and scanning advances by one.  Recursion
is on a fuel argument to stay structural; each step consumes at least
one character, so fuel equal to the length of the input (as supplied by
`stripFences`, see `stripFencesAux_spec`) is never exhausted. -/
def stripFencesAux : Nat → List Char → List Char
  | 0, l => l
  | _ + 1, [] => []
  | fuel + 1, c :: cs =>
    if (c :: cs).take 8 = "```json\n".data then stripFencesAux fuel ((c :: cs).drop 8)
    else if (c :: cs).take 7 = "```json".data then stripFencesAux fuel ((c :: cs).drop 7)
    else if (c :: cs).take 4 = "\n```".data then stripFencesAux fuel ((c :: cs).drop 4)
    else if (c :: cs).take 3 = "```".data then stripFencesAux fuel ((c :: cs).drop 3)
    else c :: stripFencesAux fuel cs

/-- Fence stripping with enough fuel for the whole input. -/
def stripFences (l : List Char) : List Char :=
  stripFencesAux l.length l

/-- `const cleanedText = text.replace(/```json\n?|\n?```/g, '').trim()`. -/
def cleanAIText (t : String) : String :=
  String.mk (trimChars (stripFences t.data))

/-- The fixed fallback result returned by the `catch` clause of
`analyzeImageFromUrl`. -/
def analyzerFallback : AnalysisResult :=
  { classification := "trash"
    confidence := 75
    explanation := "Unable to analyze this image clearly. When in doubt, it\x27s safer to put items in trash to avoid contaminating recycling."
    tips := ["Take a clearer photo if possible", "Check your local recycling guidelines", "When unsure, choose trash to be safe"] }

/-- The `try` body of `analyzeImageFromUrl`.  `ai` is the outcome of the
`blink.ai.generateText` call (`Except.error` models a transport failure,
`Except.ok` carries the reply text); `parse` is the platform `JSON.parse`
(`none` models a thrown `SyntaxError`).  The guard
`!result.classification || !['recycle','trash'].includes(...)` throws on
a missing field, and on any string outside the two literals (the extra
JS falsiness of the empty string is subsumed by the membership test). -/
def analyzeTryBody (imageUrl : String) (ai : Except String String)
    (parse : String → Option RawResult) : Except String AnalysisResult :=
  if imageUrl = "" ∨ ¬ jsStartsWith imageUrl "https://" then
    Except.error ("Invalid image URL for AI analysis: " ++ imageUrl ++ ". Must be HTTPS.")
  else
    match ai with
    | Except.error e => Except.error e
    | Except.ok text =>
      match parse (cleanAIText text) with
      | none => Except.error "SyntaxError: JSON.parse"
      | some result =>
        match result.classification with
        | none => Except.error "Invalid classification"
        | some c =>
          if c = "recycle" ∨ c = "trash" then
            Except.ok { classification := c, confidence := result.confidence,
                        explanation := result.explanation, tips := result.tips }
          else
            Except.error "Invalid classification"

/-- `analyzeImageFromUrl`: the whole body is wrapped in `try`/`catch`,
and the `catch` clause returns `analyzerFallback`. -/
def analyzeImageFromUrl (imageUrl : String) (ai : Except String String)
    (parse : String → Option RawResult) : AnalysisResult :=
  match analyzeTryBody imageUrl ai parse with
  | Except.ok r => r
  | Except.error _ => analyzerFallback

/-- The `try` body of `uploadImageToStorage`.  `storage` is the combined
outcome of the `fetch`/`blob`/`blink.storage.upload` calls: an error
models any throw from them, `Except.ok` carries the (possibly absent)
`publicUrl`.  `!publicUrl` is falsy for `undefined` and for the empty
string, hence the explicit disjunct. -/
def uploadTryBody (storage : Except String (Option String)) : Except String String :=
  match storage with
  | Except.error e => Except.error e
  | Except.ok none => Except.error "Invalid storage URL: undefined"
  | Except.ok (some publicUrl) =>
    if publicUrl = "" ∨ ¬ jsStartsWith publicUrl "https://" then
      Except.error ("Invalid storage URL: " ++ publicUrl)
    else
      Except.ok publicUrl

/-- `uploadImageToStorage`: every failure of the `try` body (including
its own `Invalid storage URL` throw) is caught and re-thrown as the
generic `Failed to upload image for analysis` error. -/
def uploadImageToStorage (storage : Except String (Option String)) : Except String String :=
  match uploadTryBody storage with
  | Except.ok url => Except.ok url
  | Except.error _ => Except.error "Failed to upload image for analysis"

/-- The scoring update of `handleUserAnswer`, as the pure state-updating
function passed to `setGameStats`.  `analysisResult` is the current
result (`none` when no analysis is present, matching the optional
chaining `analysisResult?.classification`); `===` on the string literals
is string equality, and `analysisResult?.confidence || 0` replaces a
missing (`undefined`) or zero confidence by `0`, which on integers is
the identity in the branch where it is used. -/
def handleUserAnswer (answer : String) (analysisResult : Option AnalysisResult)
    (prev : GameStats) : GameStats :=
  let isCorrect : Bool :=
    match analysisResult with
    | some r => answer = r.classification
    | none => false
  let conf : Int :=
    match analysisResult with
    | some r => r.confidence
    | none => 0
  let points : Int := if isCorrect then conf else 0
  { score := prev.score + points
    streak := if isCorrect then prev.streak + 1 else 0
    totalAnswers := prev.totalAnswers + 1
    correctAnswers := prev.correctAnswers + (if isCorrect then 1 else 0)
    level := Int.fdiv (prev.score + points) 500 + 1 }

/-- A finished round as the UI allows it: the answer button is rendered
only while `analysisResult` is non-null, so each update is an answer
string together with the current result. -/
def runGame (moves : List (String × AnalysisResult)) (s : GameStats) : GameStats :=
  match moves with
  | [] => s
  | (a, r) :: rest => runGame rest (handleUserAnswer a (some r) s)

/-- Floor of a rational, computed with flooring integer division so
that it evaluates by kernel reduction; `ratFloor_eq_floor` identifies
it with the mathematical floor. -/
def ratFloor (q : ℚ) : Int :=
  Int.fdiv q.num (q.den : Int)

/-- Model of JavaScript `Math.round` on a non-NaN number: round half
toward positive infinity; `jsRound_eq_round` identifies it with the
mathematical half-up rounding. -/
def jsRound (q : ℚ) : Int :=
  ratFloor (q + 1 / 2)

/-- JavaScript division, `none` standing for the NaN produced by `0/0`
(and for the infinities of division by zero generally, none of which
a later `Math.round` could repair). -/
def jsDiv (a b : ℚ) : Option ℚ :=
  if b = 0 then none else some (a / b)

/-- The `accuracy` constant of the component:
`gameStats.totalAnswers > 0 ? Math.round((correctAnswers / totalAnswers) * 100) : 0`. -/
def accuracy (stats : GameStats) : Option Int :=
  if 0 < stats.totalAnswers then
    (jsDiv (stats.correctAnswers : ℚ) (stats.totalAnswers : ℚ)).map (fun q => jsRound (q * 100))
  else
    some 0

/-- The component state touched by the streaming-analysis loop.
`intervalActive` models a non-null `analysisIntervalRef.current`;
`stream` and `isCameraMode` are carried for the `stopCamera` path;
`userAnswer` is `none` for the null answer. -/
structure AppState where
  analysisResult : Option AnalysisResult
  showResult : Bool
  userAnswer : Option String
  lastAnalysisTime : Int
  intervalActive : Bool
  isStreamingAnalysis : Bool
  isCameraMode : Bool
  stream : Bool
deriving DecidableEq

/-- The state of a freshly mounted component. -/
def initialAppState : AppState :=
  { analysisResult := none, showResult := false, userAnswer := none,
    lastAnalysisTime := 0, intervalActive := false,
    isStreamingAnalysis := false, isCameraMode := false, stream := false }

/-- `startStreamingAnalysis`: resets the round state and installs the
interval.  The second component is the value of `lastAnalysisTime`
captured by the interval callback's closure at installation time; React
state updates made later by `setLastAnalysisTime` are never seen by the
already-installed callback. -/
def startStreamingAnalysis (s : AppState) : AppState × Int :=
  ({ s with isStreamingAnalysis := true, analysisResult := none,
            showResult := false, userAnswer := none, intervalActive := true },
   s.lastAnalysisTime)

/-- `stopStreamingAnalysis`: clears the streaming flag, cancels the
interval and nulls its handle. -/
def stopStreamingAnalysis (s : AppState) : AppState :=
  { s with isStreamingAnalysis := false, intervalActive := false }

/-- `stopCamera`: stops the stream tracks, leaves camera mode, clears
the streaming flag, cancels the interval and nulls its handle.  This is
also the unmount teardown path. -/
def stopCamera (s : AppState) : AppState :=
  { s with stream := false, isCameraMode := false,
           isStreamingAnalysis := false, intervalActive := false }

/-- The fixed fallback installed by the `catch` clause inside the
streaming tick of `startStreamingAnalysis`. -/
def streamingFallback : AnalysisResult :=
  { classification := "trash"
    confidence := 75
    explanation := "Unable to analyze this frame. Please try adjusting the camera angle or lighting."
    tips := ["Ensure good lighting", "Hold the camera steady", "Make sure the object is clearly visible"] }

/-- The result a tick stores once it proceeds past the throttle and
frame checks: `uploadImageToStorage` then `analyzeImageFromUrl`, with
any throw (only the upload can throw, the analyzer catches its own
failures) replaced by `streamingFallback` in the tick's `catch`. -/
def tickAttemptResult (storage : Except String (Option String))
    (ai : Except String String) (parse : String → Option RawResult) : AnalysisResult :=
  match uploadImageToStorage storage with
  | Except.error _ => streamingFallback
  | Except.ok url => analyzeImageFromUrl url ai parse

/-- The environment of one firing of the 500 ms interval callback:
the clock reading `Date.now()`, the frame returned by `captureFrame`
(`none` when no video frame is available), and the oracles for the
external calls made during the attempt. -/
structure TickInput where
  now : Int
  frame : Option String
  storage : Except String (Option String)
  ai : Except String String
  parse : String → Option RawResult

/-- One firing of the interval callback.  `captured` is the
closure-captured `lastAnalysisTime` (see `startStreamingAnalysis`); the
callback fires only while the interval is installed.  Returns the new
state and `some t` when the attempt at time `t` proceeded past the
throttle and frame checks (i.e. called `setLastAnalysisTime` and began
upload + classification). -/
def tick (captured : Int) (inp : TickInput) (s : AppState) : AppState × Option Int :=
  if ¬ s.intervalActive then (s, none)
  else if inp.now - captured < 2000 then (s, none)
  else
    match inp.frame with
    | none => (s, none)
    | some _ =>
      let s1 := { s with lastAnalysisTime := inp.now }
      ({ s1 with analysisResult := some (tickAttemptResult inp.storage inp.ai inp.parse) },
       some inp.now)

/-- A sequence of interval firings; returns the final state and the
list of times at which attempts proceeded past the throttle check. -/
def runTicks (captured : Int) (inputs : List TickInput) (s : AppState) :
    AppState × List Int :=
  match inputs with
  | [] => (s, [])
  | inp :: rest =>
    let step := tick captured inp s
    let cont := runTicks captured rest step.1
    (cont.1, step.2.toList ++ cont.2)

/-! ## Supporting lemmas -/

/-- `stripFencesAux` does not depend on the fuel once the fuel covers
the length of the input, so `stripFences` computes the full left-to-right
regex replacement and the fuel-exhaustion branch is never taken. -/
theorem stripFencesAux_spec :
    ∀ (f g : Nat) (l : List Char), l.length ≤ f → l.length ≤ g →
      stripFencesAux f l = stripFencesAux g l := by
  intro f
  induction f with
  | zero =>
    intro g l hf _
    have : l = [] := List.eq_nil_of_length_eq_zero (Nat.le_zero.mp hf)
    subst this
    cases g <;> rfl
  | succ f ih =>
    intro g l hf hg
    cases l with
    | nil => cases g <;> rfl
    | cons c cs =>
      cases g with
      | zero => simp at hg
      | succ g =>
        simp only [stripFencesAux]
        have hlen : cs.length ≤ f := by simpa using hf
        have hlen' : cs.length ≤ g := by simpa using hg
        split_ifs with h1 h2 h3 h4
        · exact ih g _ (by simp; omega) (by simp; omega)
        · exact ih g _ (by simp; omega) (by simp; omega)
        · exact ih g _ (by simp; omega) (by simp; omega)
        · exact ih g _ (by simp; omega) (by simp; omega)
        · exact congrArg (c :: ·) (ih g cs hlen hlen')

/-- `ratFloor` is the mathematical floor. -/
theorem ratFloor_eq_floor (q : ℚ) : ratFloor q = ⌊q⌋ := by
  rw [ratFloor, Rat.floor_def, Int.fdiv_eq_ediv _ (by positivity)]

/-- `jsRound` is the half-up rounding `round` of Mathlib. -/
theorem jsRound_eq_round (q : ℚ) : jsRound q = round q := by
  rw [jsRound, ratFloor_eq_floor, round_eq]

/-- Inversion of the successful branch of the Classifier: a non-thrown
result comes from a parsed reply whose classification was validated,
and carries the parsed fields unchanged. -/
theorem analyzeTryBody_ok {url : String} {ai : Except String String}
    {parse : String → Option RawResult} {r : AnalysisResult}
    (h : analyzeTryBody url ai parse = Except.ok r) :
    ∃ text raw c, ai = Except.ok text ∧ parse (cleanAIText text) = some raw ∧
      raw.classification = some c ∧ (c = "recycle" ∨ c = "trash") ∧
      r = AnalysisResult.mk c raw.confidence raw.explanation raw.tips := by
  unfold analyzeTryBody at h
  split_ifs at h
  split at h
  · exact absurd h (by simp)
  · rename_i text
    split at h
    · exact absurd h (by simp)
    · rename_i raw hp
      split at h
      · exact absurd h (by simp)
      · rename_i c hc
        split_ifs at h with hv
        exact ⟨text, raw, c, rfl, hp, hc, hv, (Except.ok.inj h).symm⟩

/-! ## Claims -/

/-- Claim C1: for every previous `GameStats`, user answer and current
`AnalysisResult`, `handleUserAnswer` decides correctness by direct
equality of the answer with the result's classification; adds exactly
the result's confidence to the score when correct and `0` otherwise;
sets streak to previous streak + 1 when correct and `0` otherwise;
always increments `totalAnswers`; increments `correctAnswers` exactly
when correct; and sets `level = ⌊new score / 500⌋ + 1`.  Moreover the
two concrete rounds named by the spec come out as stated. -/
theorem handleUserAnswer_spec :
    (∀ (prev : GameStats) (answer : String) (r : AnalysisResult),
      handleUserAnswer answer (some r) prev =
        { score := prev.score + (if answer = r.classification then r.confidence else 0)
          streak := if answer = r.classification then prev.streak + 1 else 0
          totalAnswers := prev.totalAnswers + 1
          correctAnswers := prev.correctAnswers + (if answer = r.classification then 1 else 0)
          level := Int.fdiv (prev.score + (if answer = r.classification then r.confidence else 0)) 500 + 1 }) ∧
    (∀ (conf : Int),
      handleUserAnswer "trash"
          (some (AnalysisResult.mk "recycle" conf "e" []))
          (GameStats.mk 100 2 5 3 1) =
        GameStats.mk 100 0 6 3 1) ∧
    (∀ (t c : Int),
      (handleUserAnswer "recycle"
          (some (AnalysisResult.mk "recycle" 90 "e" []))
          (GameStats.mk 410 1 t c 1)).score = 500 ∧
      (handleUserAnswer "recycle"
          (some (AnalysisResult.mk "recycle" 90 "e" []))
          (GameStats.mk 410 1 t c 1)).level = 2) := by
  refine ⟨?_, ?_, ?_⟩
  · intro prev answer r
    simp only [handleUserAnswer]
    by_cases h : answer = r.classification <;> simp [h]
  · intro conf
    simp [handleUserAnswer]
  · intro t c
    constructor <;> rfl

/-- Claim C2: whenever the AI call fails, or the fence-stripped reply is
not valid JSON, or the parsed classification field is missing or is not
exactly `recycle` or `trash`, `analyzeImageFromUrl` does not raise to
its caller and returns the fixed fallback (classification `trash`,
confidence 75). -/
theorem analyzeImageFromUrl_fallback_on_failure :
    (∀ (url e : String) (parse : String → Option RawResult),
      analyzeImageFromUrl url (Except.error e) parse = analyzerFallback) ∧
    (∀ (url text : String) (parse : String → Option RawResult),
      parse (cleanAIText text) = none →
      analyzeImageFromUrl url (Except.ok text) parse = analyzerFallback) ∧
    (∀ (url text : String) (parse : String → Option RawResult) (raw : RawResult),
      parse (cleanAIText text) = some raw →
      (∀ c, raw.classification = some c → c ≠ "recycle" ∧ c ≠ "trash") →
      analyzeImageFromUrl url (Except.ok text) parse = analyzerFallback) := by
  refine ⟨?_, ?_, ?_⟩
  · intro url e parse
    unfold analyzeImageFromUrl analyzeTryBody
    split_ifs <;> rfl
  · intro url text parse hp
    cases h : analyzeTryBody url (Except.ok text) parse with
    | error e => simp [analyzeImageFromUrl, h]
    | ok r =>
      obtain ⟨text', raw, c, hai, hp', -, -, -⟩ := analyzeTryBody_ok h
      injection hai with htext
      rw [← htext, hp] at hp'
      exact absurd hp' (by simp)
  · intro url text parse raw hp hc
    cases h : analyzeTryBody url (Except.ok text) parse with
    | error e => simp [analyzeImageFromUrl, h]
    | ok r =>
      obtain ⟨text', raw', c, hai, hp', hcl, hv, -⟩ := analyzeTryBody_ok h
      injection hai with htext
      rw [← htext, hp] at hp'
      injection hp' with hraw
      rw [← hraw] at hcl
      have := hc c hcl
      rcases hv with hv | hv
      · exact absurd hv this.1
      · exact absurd hv this.2

/-- Claim C2 witness: a reply the oracle cannot parse, and a parsed
reply whose classification is the string `banana`, both yield the exact
fallback. -/
theorem analyzeImageFromUrl_fallback_on_failure_witness :
    analyzeImageFromUrl "https://img.example/a.jpg" (Except.ok "this is not json")
      (fun _ => none) = analyzerFallback ∧
    analyzeImageFromUrl "https://img.example/a.jpg" (Except.ok "reply text")
      (fun _ => some (RawResult.mk (some "banana") 90 "ok" [])) = analyzerFallback :=
  ⟨analyzeImageFromUrl_fallback_on_failure.2.1 _ _ _ rfl,
   analyzeImageFromUrl_fallback_on_failure.2.2 _ _ _ _ rfl
     (by intro c hc; injection hc with h; subst h; exact ⟨by decide, by decide⟩)⟩

/-- Claim C3 counterexample: the Classifier validates only the
classification field, never the confidence.  `JSON.parse` applied to
the reply `{"classification": "recycle", "confidence": 5, "explanation":
"low", "tips": []}` yields exactly the record the oracle returns here,
and `analyzeImageFromUrl` passes its confidence 5 through unchanged,
violating `70 ≤ confidence ≤ 99`. -/
theorem analyzer_confidence_counterexample :
    (analyzeImageFromUrl "https://img.example/a.jpg" (Except.ok "reply text")
        (fun _ => some (RawResult.mk (some "recycle") 5 "low" []))).confidence = 5 ∧
    ¬ (70 ≤ (analyzeImageFromUrl "https://img.example/a.jpg" (Except.ok "reply text")
        (fun _ => some (RawResult.mk (some "recycle") 5 "low" []))).confidence) := by
  exact ⟨rfl, by decide⟩

/-- Claim C3 as amended: every result of `analyzeImageFromUrl` has
classification `recycle` or `trash`; the fallback's confidence is
within 70–99; but a result produced from a successfully parsed reply
carries the parsed confidence unvalidated, so only the fallback branch
guarantees the 70–99 bound. -/
theorem analyzer_result_shape :
    ∀ (url : String) (ai : Except String String) (parse : String → Option RawResult),
      ((analyzeImageFromUrl url ai parse).classification = "recycle" ∨
        (analyzeImageFromUrl url ai parse).classification = "trash") ∧
      (70 ≤ analyzerFallback.confidence ∧ analyzerFallback.confidence ≤ 99) ∧
      (analyzeImageFromUrl url ai parse ≠ analyzerFallback →
        ∃ text raw, ai = Except.ok text ∧ parse (cleanAIText text) = some raw ∧
          (analyzeImageFromUrl url ai parse).confidence = raw.confidence) := by
  intro url ai parse
  refine ⟨?_, by decide, ?_⟩
  · cases h : analyzeTryBody url ai parse with
    | error e => simp [analyzeImageFromUrl, h, analyzerFallback]
    | ok r =>
      obtain ⟨text, raw, c, -, -, -, hv, hr⟩ := analyzeTryBody_ok h
      simp only [analyzeImageFromUrl, h, hr]
      exact hv
  · intro hne
    cases h : analyzeTryBody url ai parse with
    | error e => exact absurd (by simp [analyzeImageFromUrl, h]) hne
    | ok r =>
      obtain ⟨text, raw, c, hai, hp, -, -, hr⟩ := analyzeTryBody_ok h
      exact ⟨text, raw, hai, hp, by simp [analyzeImageFromUrl, h, hr]⟩

/-- Claim C3 amended witness: on an AI transport failure the result is
the fallback (classification `trash`, confidence within bounds), and on
the parsed low-confidence reply of the counterexample the confidence is
passed through from the parse. -/
theorem analyzer_result_shape_witness :
    ((analyzeImageFromUrl "https://img.example/a.jpg" (Except.error "network")
        (fun _ => none)).classification = "recycle" ∨
      (analyzeImageFromUrl "https://img.example/a.jpg" (Except.error "network")
        (fun _ => none)).classification = "trash") ∧
    (∃ text raw, (Except.ok "reply text" : Except String String) = Except.ok text ∧
      (fun _ => some (RawResult.mk (some "recycle") 5 "low" []) :
          String → Option RawResult) (cleanAIText text) = some raw ∧
      (analyzeImageFromUrl "https://img.example/a.jpg" (Except.ok "reply text")
        (fun _ => some (RawResult.mk (some "recycle") 5 "low" []))).confidence = raw.confidence) :=
  ⟨(analyzer_result_shape "https://img.example/a.jpg" (Except.error "network") (fun _ => none)).1,
   (analyzer_result_shape "https://img.example/a.jpg" (Except.ok "reply text")
      (fun _ => some (RawResult.mk (some "recycle") 5 "low" []))).2.2 (by decide)⟩

/-- Claim C10: for an empty or non-HTTPS input URL, the Classifier's own
URL-validation throw is caught by its own catch handler: the try body
signals an error, nothing propagates to the caller, and the call returns
the same fixed fallback an AI failure would produce. -/
theorem analyzer_url_guard :
    ∀ (url : String) (ai : Except String String) (parse : String → Option RawResult),
      (url = "" ∨ ¬ jsStartsWith url "https://") →
      (∃ e, analyzeTryBody url ai parse = Except.error e) ∧
      analyzeImageFromUrl url ai parse = analyzerFallback := by
  intro url ai parse hurl
  have hbody : analyzeTryBody url ai parse =
      Except.error ("Invalid image URL for AI analysis: " ++ url ++ ". Must be HTTPS.") := by
    unfold analyzeTryBody
    rw [if_pos hurl]
  exact ⟨⟨_, hbody⟩, by simp [analyzeImageFromUrl, hbody]⟩

/-- Claim C10 witness: an `http://` URL yields the fallback without the
caller seeing the URL-validation error. -/
theorem analyzer_url_guard_witness :
    (∃ e, analyzeTryBody "http://img.example/a.jpg" (Except.ok "reply text")
      (fun _ => some (RawResult.mk (some "recycle") 90 "ok" [])) = Except.error e) ∧
    analyzeImageFromUrl "http://img.example/a.jpg" (Except.ok "reply text")
      (fun _ => some (RawResult.mk (some "recycle") 90 "ok" [])) = analyzerFallback :=
  analyzer_url_guard "http://img.example/a.jpg" (Except.ok "reply text")
    (fun _ => some (RawResult.mk (some "recycle") 90 "ok" [])) (Or.inr (by decide))

/-- Claim C5 counterexample: the fallback installed by the streaming
tick's catch branch is not identical to the Classifier's fallback —
they differ in explanation and tips. -/
theorem streaming_fallback_counterexample :
    streamingFallback ≠ analyzerFallback := by
  decide

/-- Claim C5 as amended: when the tick's capture-upload-classify
sequence throws (the upload failing is the only thrower, since the
Classifier catches its own failures), the stored result is the tick's
fixed fallback, which agrees with the Classifier's fallback on
classification (`trash`) and confidence (75) but has different
explanation and tips texts. -/
theorem streaming_fallback_partial_match :
    (∀ (storage : Except String (Option String)) (ai : Except String String)
        (parse : String → Option RawResult) (e : String),
      uploadImageToStorage storage = Except.error e →
      tickAttemptResult storage ai parse = streamingFallback) ∧
    streamingFallback.classification = analyzerFallback.classification ∧
    streamingFallback.confidence = analyzerFallback.confidence ∧
    streamingFallback.explanation ≠ analyzerFallback.explanation ∧
    streamingFallback.tips ≠ analyzerFallback.tips := by
  refine ⟨?_, rfl, rfl, by decide, by decide⟩
  intro storage ai parse e h
  rw [tickAttemptResult, h]

/-- Claim C5 amended witness: a network failure during upload makes the
tick store exactly its own fallback. -/
theorem streaming_fallback_partial_match_witness :
    tickAttemptResult (Except.error "network") (Except.ok "reply text")
      (fun _ => some (RawResult.mk (some "recycle") 90 "ok" [])) = streamingFallback :=
  streaming_fallback_partial_match.1 (Except.error "network") (Except.ok "reply text")
    (fun _ => some (RawResult.mk (some "recycle") 90 "ok" []))
    "Failed to upload image for analysis" rfl

/-- Claim C6: `uploadImageToStorage` fails with the generic
upload-failure error when the storage collaborator throws, returns no
URL, or returns a URL that does not begin with `https://`; when the
returned URL does begin with `https://` it is returned unchanged. -/
theorem uploadImageToStorage_spec :
    (∀ (e : String),
      uploadImageToStorage (Except.error e) = Except.error "Failed to upload image for analysis") ∧
    uploadImageToStorage (Except.ok none) = Except.error "Failed to upload image for analysis" ∧
    (∀ (u : String), ¬ jsStartsWith u "https://" →
      uploadImageToStorage (Except.ok (some u)) = Except.error "Failed to upload image for analysis") ∧
    (∀ (u : String), jsStartsWith u "https://" →
      uploadImageToStorage (Except.ok (some u)) = Except.ok u) := by
  refine ⟨fun e => rfl, rfl, ?_, ?_⟩
  · intro u h
    simp only [uploadImageToStorage, uploadTryBody]
    rw [if_pos (Or.inr h)]
  · intro u h
    have hne : u ≠ "" := by
      intro he
      rw [he] at h
      exact absurd h (by decide)
    simp only [uploadImageToStorage, uploadTryBody]
    rw [if_neg (by simp [h, hne])]

/-- Claim C6 witness: a well-formed `http://` URL is rejected with the
generic failure, an `https://` URL is passed through unchanged. -/
theorem uploadImageToStorage_spec_witness :
    uploadImageToStorage (Except.ok (some "http://files.example/a.jpg")) =
      Except.error "Failed to upload image for analysis" ∧
    uploadImageToStorage (Except.ok (some "https://files.example/a.jpg")) =
      Except.ok "https://files.example/a.jpg" :=
  ⟨uploadImageToStorage_spec.2.2.1 "http://files.example/a.jpg" (by decide),
   uploadImageToStorage_spec.2.2.2 "https://files.example/a.jpg" (by decide)⟩

/-- Once the interval is inactive no tick does anything: the callback is
simply never invoked again. -/
theorem runTicks_inactive (captured : Int) :
    ∀ (inputs : List TickInput) (s : AppState), ¬ s.intervalActive →
      runTicks captured inputs s = (s, []) := by
  intro inputs
  induction inputs with
  | nil => intro s _; rfl
  | cons inp rest ih =>
    intro s hs
    have hstep : tick captured inp s = (s, none) := by
      unfold tick
      rw [if_pos hs]
    simp [runTicks, hstep, ih s hs]

/-- Claim C7: after `stopStreamingAnalysis` or `stopCamera` (also the
unmount teardown, which calls `stopCamera`), the interval is cancelled
and its handle cleared, so any further passage of time produces zero
tick executions: no attempt begins, the state (in particular the stored
`AnalysisResult`) never changes again through the timer. -/
theorem stop_cancels_ticks :
    ∀ (s : AppState) (captured : Int) (inputs : List TickInput),
      runTicks captured inputs (stopStreamingAnalysis s) = (stopStreamingAnalysis s, []) ∧
      (runTicks captured inputs (stopStreamingAnalysis s)).1.analysisResult = s.analysisResult ∧
      runTicks captured inputs (stopCamera s) = (stopCamera s, []) ∧
      (runTicks captured inputs (stopCamera s)).1.analysisResult = s.analysisResult := by
  intro s captured inputs
  have h1 : runTicks captured inputs (stopStreamingAnalysis s) = (stopStreamingAnalysis s, []) :=
    runTicks_inactive captured inputs _ (by simp [stopStreamingAnalysis])
  have h2 : runTicks captured inputs (stopCamera s) = (stopCamera s, []) :=
    runTicks_inactive captured inputs _ (by simp [stopCamera])
  exact ⟨h1, by rw [h1]; rfl, h2, by rw [h2]; rfl⟩

/-- The tick environment used for the concrete throttle trace: a frame
is available and upload and analysis succeed. -/
def demoTickInput (t : Int) : TickInput :=
  { now := t
    frame := some "frame"
    storage := Except.ok (some "https://img.example/a.jpg")
    ai := Except.ok "reply text"
    parse := fun _ => some (RawResult.mk (some "recycle") 90 "ok" []) }

/-- Claim C4 evaluation at the failing input: the interval callback
reads the `lastAnalysisTime` captured by its closure when
`startStreamingAnalysis` installed it (here the initial `0`), not the
value later written by `setLastAnalysisTime`, so the ticks at `t = 2000`
and `t = 2500` both pass the throttle check and begin attempts 500 ms
apart — less than the claimed minimum separation of 2000 ms. -/
theorem throttle_stale_closure_bug :
    (runTicks (startStreamingAnalysis initialAppState).2
        [demoTickInput 2000, demoTickInput 2500]
        (startStreamingAnalysis initialAppState).1).2 = [2000, 2500] ∧
    (2500 : Int) - 2000 < 2000 := by
  exact ⟨rfl, by decide⟩

/-- The throttle the spec describes, for comparison: the same tick body
but with the gate re-reading the current `lastAnalysisTime` state on
every firing instead of the closure-captured value. -/
def tickFresh (inp : TickInput) (s : AppState) : AppState × Option Int :=
  if ¬ s.intervalActive then (s, none)
  else if inp.now - s.lastAnalysisTime < 2000 then (s, none)
  else
    match inp.frame with
    | none => (s, none)
    | some _ =>
      let s1 := { s with lastAnalysisTime := inp.now }
      ({ s1 with analysisResult := some (tickAttemptResult inp.storage inp.ai inp.parse) },
       some inp.now)

/-- A successful fresh-read attempt happens at the firing time, records
that time in `lastAnalysisTime`, and is at least 2000 ms after the
previously recorded time. -/
theorem tickFresh_attempt (inp : TickInput) (s s' : AppState) (t : Int)
    (h : tickFresh inp s = (s', some t)) :
    t = inp.now ∧ s'.lastAnalysisTime = inp.now ∧
      s.lastAnalysisTime + 2000 ≤ inp.now := by
  unfold tickFresh at h
  split_ifs at h with h1 h2
  · exact absurd (congrArg Prod.snd h) (by simp)
  · cases hf : inp.frame with
    | none =>
      rw [hf] at h
      exact absurd (congrArg Prod.snd h) (by simp)
    | some f =>
      rw [hf] at h
      have hfst := congrArg Prod.fst h
      have hsnd := congrArg Prod.snd h
      simp only at hfst hsnd
      refine ⟨by simpa using hsnd.symm, ?_, by omega⟩
      rw [← hfst]
  · exact absurd (congrArg Prod.snd h) (by simp)

/-- Under the fresh-read gate, two consecutive successful attempts are
at least 2000 ms apart — the property the claim asserts of the code. -/
theorem tickFresh_gap (inp inp' : TickInput) (s s' s'' : AppState) (t t' : Int)
    (h : tickFresh inp s = (s', some t)) (h' : tickFresh inp' s' = (s'', some t')) :
    t + 2000 ≤ t' := by
  obtain ⟨ht, hlast, -⟩ := tickFresh_attempt inp s s' t h
  obtain ⟨ht', -, hgap⟩ := tickFresh_attempt inp' s' s'' t' h'
  omega

/-- The invariant the spec claims for every reachable `GameStats`. -/
def StatsInv (s : GameStats) : Prop :=
  0 ≤ s.score ∧ 0 ≤ s.streak ∧ 0 ≤ s.totalAnswers ∧ 0 ≤ s.correctAnswers ∧
    0 < s.level ∧ s.level = Int.fdiv s.score 500 + 1

/-- The scoring update written out as an explicit record. -/
theorem handleUserAnswer_eq (prev : GameStats) (a : String) (r : AnalysisResult) :
    handleUserAnswer a (some r) prev =
      GameStats.mk (prev.score + (if a = r.classification then r.confidence else 0))
        (if a = r.classification then prev.streak + 1 else 0)
        (prev.totalAnswers + 1)
        (prev.correctAnswers + (if a = r.classification then 1 else 0))
        (Int.fdiv (prev.score + (if a = r.classification then r.confidence else 0)) 500 + 1) := by
  unfold handleUserAnswer
  by_cases hc : a = r.classification <;> simp [hc]

/-- One scoring update with a non-negative confidence preserves the
invariant. -/
theorem handleUserAnswer_inv (s : GameStats) (a : String) (r : AnalysisResult)
    (hconf : 0 ≤ r.confidence) (hs : StatsInv s) :
    StatsInv (handleUserAnswer a (some r) s) := by
  obtain ⟨h1, h2, h3, h4, -, -⟩ := hs
  rw [handleUserAnswer_eq]
  have hpts : 0 ≤ (if a = r.classification then r.confidence else 0) := by
    split_ifs
    · exact hconf
    · exact le_refl 0
  have hfdiv : 0 ≤ Int.fdiv (s.score + (if a = r.classification then r.confidence else 0)) 500 :=
    Int.fdiv_nonneg (by omega) (by omega)
  unfold StatsInv
  dsimp only
  exact ⟨by omega, by split_ifs <;> omega, by omega, by split_ifs <;> omega, by omega, rfl⟩

/-- Every run from an invariant-satisfying state through updates with
non-negative confidences preserves the invariant. -/
theorem runGame_inv :
    ∀ (moves : List (String × AnalysisResult)) (s : GameStats),
      (∀ m ∈ moves, 0 ≤ m.2.confidence) → StatsInv s →
      StatsInv (runGame moves s) := by
  intro moves
  induction moves with
  | nil => intro s _ hs; exact hs
  | cons m rest ih =>
    intro s hconf hs
    exact ih _ (fun x hx => hconf x (List.mem_cons_of_mem m hx))
      (handleUserAnswer_inv s m.1 m.2 (hconf m (List.mem_cons_self m rest)) hs)

/-- Claim C8 counterexample: the scoring update never validates the
confidence it adds, and the Classifier passes a parsed confidence
through unvalidated (see the C3 theorems), so a correct answer against
a result with confidence `-1` drives the state reached from the initial
stats out of the claimed invariant: the score becomes `-1` (negative,
and smaller than before the update) and the level becomes `0` (not a
positive integer). -/
theorem gameStats_invariant_counterexample :
    (runGame [("recycle", AnalysisResult.mk "recycle" (-1) "e" [])] initialGameStats).score = -1 ∧
    (runGame [("recycle", AnalysisResult.mk "recycle" (-1) "e" [])] initialGameStats).level = 0 ∧
    ¬ (0 ≤ (runGame [("recycle", AnalysisResult.mk "recycle" (-1) "e" [])] initialGameStats).score) ∧
    ¬ (0 < (runGame [("recycle", AnalysisResult.mk "recycle" (-1) "e" [])] initialGameStats).level) := by
  exact ⟨rfl, rfl, by decide, by decide⟩

/-- Claim C8 as amended: provided every `AnalysisResult` fed to the
scoring update has non-negative confidence (true of the fallback and of
every schema-conforming AI reply, but not enforced by the code), every
state reachable from the initial stats satisfies the claimed invariant,
and each update leaves `score`, `totalAnswers` and `correctAnswers`
no smaller. -/
theorem gameStats_invariant_amended :
    (∀ (moves : List (String × AnalysisResult)),
      (∀ m ∈ moves, 0 ≤ m.2.confidence) →
      StatsInv (runGame moves initialGameStats)) ∧
    (∀ (s : GameStats) (a : String) (r : AnalysisResult), 0 ≤ r.confidence →
      s.score ≤ (handleUserAnswer a (some r) s).score ∧
      s.totalAnswers ≤ (handleUserAnswer a (some r) s).totalAnswers ∧
      s.correctAnswers ≤ (handleUserAnswer a (some r) s).correctAnswers) := by
  constructor
  · intro moves hconf
    exact runGame_inv moves initialGameStats hconf (by unfold StatsInv; decide)
  · intro s a r hconf
    rw [handleUserAnswer_eq]
    dsimp only
    have hpts : 0 ≤ (if a = r.classification then r.confidence else 0) := by
      split_ifs
      · exact hconf
      · exact le_refl 0
    exact ⟨by omega, by omega, by split_ifs <;> omega⟩

/-- Claim C8 amended witness: two rounds with in-range confidences from
the initial stats stay inside the invariant, and a single update is
monotone on the concrete state reached. -/
theorem gameStats_invariant_amended_witness :
    StatsInv (runGame [("recycle", AnalysisResult.mk "recycle" 90 "e" []),
        ("trash", AnalysisResult.mk "recycle" 80 "e" [])] initialGameStats) ∧
    (GameStats.mk 90 1 1 1 1).score ≤
      (handleUserAnswer "trash" (some (AnalysisResult.mk "trash" 75 "e" []))
        (GameStats.mk 90 1 1 1 1)).score :=
  ⟨gameStats_invariant_amended.1 _ (by decide),
   (gameStats_invariant_amended.2 (GameStats.mk 90 1 1 1 1) "trash"
      (AnalysisResult.mk "trash" 75 "e" []) (by decide)).1⟩

/-- Claim C9: the displayed accuracy is `round(correctAnswers /
totalAnswers × 100)` when `totalAnswers > 0`, exactly `0` when
`totalAnswers = 0`, and the guarded expression never produces the NaN
of a division by zero (`none` in this model). -/
theorem accuracy_spec :
    ∀ (stats : GameStats),
      (0 < stats.totalAnswers →
        accuracy stats =
          some (round ((stats.correctAnswers : ℚ) / (stats.totalAnswers : ℚ) * 100))) ∧
      (stats.totalAnswers = 0 → accuracy stats = some 0) ∧
      accuracy stats ≠ none := by
  intro stats
  refine ⟨?_, ?_, ?_⟩
  · intro hpos
    have hne : (stats.totalAnswers : ℚ) ≠ 0 := by
      exact_mod_cast (by omega : stats.totalAnswers ≠ 0)
    rw [accuracy, if_pos hpos, jsDiv, if_neg hne]
    simp [jsRound_eq_round]
  · intro hzero
    rw [accuracy, if_neg (by omega)]
  · unfold accuracy jsDiv
    split_ifs with h1 h2
    · have : (stats.totalAnswers : ℚ) ≠ 0 := by
        exact_mod_cast (by omega : stats.totalAnswers ≠ 0)
      exact absurd h2 this
    · simp
    · simp

/-- Claim C9 witness: 3 correct of 4 displays 75, 3 of 8 displays 38
(37.5 rounded half-up), and zero attempts display 0. -/
theorem accuracy_spec_witness :
    accuracy (GameStats.mk 0 0 4 3 1) = some 75 ∧
    accuracy (GameStats.mk 0 0 8 3 1) = some 38 ∧
    accuracy (GameStats.mk 0 0 0 0 1) = some 0 := by
  refine ⟨?_, ?_, (accuracy_spec (GameStats.mk 0 0 0 0 1)).2.1 rfl⟩
  · rw [(accuracy_spec (GameStats.mk 0 0 4 3 1)).1 (by decide)]
    norm_num [round_eq]
  · rw [(accuracy_spec (GameStats.mk 0 0 8 3 1)).1 (by decide)]
    norm_num [round_eq]

end EcoSort
